import Mathlib

/-!
Shallow embedding of the conversation-turn and lead-qualification logic of
the Ai-Azure-VoiceAgent repository (Azure Functions voice agent).

The embedded code comes from:
  * the enhanced voice-stream handler (analyzeMessage, calculateLeadScore,
    updateLead, the leadInfo merge, the confidence filter and the TwiML
    branches of module.exports);
  * the legacy voice-stream handler (src/voice-stream/index.js);
  * FirebaseService.findBusinessByPhone / getDefaultBusinessConfig.

JavaScript strings are modelled as Lean Strings; JS string primitives
(toLowerCase, includes, trim, the \s and [a-z] regex classes) are given
explicit executable definitions below.  Recognition confidence, produced by
parseFloat of a short decimal form field and compared against the literal
0.3, is modelled as a rational number: on the short decimal inputs Twilio
sends, IEEE-754 parsing preserves order and equality with the 0.3 literal,
so the rational model is order-faithful.
-/

namespace VoiceAgent

/-- characters matched by the JavaScript regex class \s (ASCII part;
the handlers only ever see spaces and line breaks here). -/
def isJsSpace (c : Char) : Bool :=
  c = ' ' || c = '\t' || c = '\n' || c = '\r' || c = '\x0b' || c = '\x0c'

/-- characters matched by the regex class [a-z] under the /i flag. -/
def isAsciiLetter (c : Char) : Bool :=
  ('a' ≤ c && c ≤ 'z') || ('A' ≤ c && c ≤ 'Z')

/-- case-insensitive character comparison (the /i flag on ASCII). -/
def lowerEq (c d : Char) : Bool := c.toLower = d.toLower

/-- does the character list start with the given pattern? -/
def startsWithChars : List Char → List Char → Bool
  | _, [] => true
  | [], _ :: _ => false
  | c :: cs, d :: ds => c = d && startsWithChars cs ds

/-- substring containment on character lists. -/
def containsSub : List Char → List Char → Bool
  | [], pat => pat.isEmpty
  | c :: cs, pat => startsWithChars (c :: cs) pat || containsSub cs pat

/-- JavaScript `haystack.includes(needle)`. -/
def jsIncludes (hay pat : String) : Bool := containsSub hay.toList pat.toList

/-- JavaScript `String.prototype.trim`. -/
def jsTrim (s : String) : String :=
  String.mk (((s.toList.dropWhile isJsSpace).reverse.dropWhile isJsSpace).reverse)

/-- JavaScript `String.prototype.toLowerCase` (ASCII). -/
def jsToLower (s : String) : String := String.mk (s.toList.map Char.toLower)

/-- contactInfo object assembled by analyzeMessage; only the `name`
property is ever set or read. -/
structure ContactInfo where
  name : Option String
deriving DecidableEq, Repr

/-- per-utterance analysis object returned by analyzeMessage. -/
structure Analysis where
  hasEmergency : Bool
  serviceType : Option String
  urgencyLevel : String
  contactInfo : ContactInfo
deriving DecidableEq, Repr

/-- emergency keyword list of analyzeMessage. -/
def emergencyKeywords : List String :=
  ["emergency", "urgent", "no heat", "no air", "gas smell", "electrical", "flooding"]

/-- ordered service-type table of analyzeMessage (object literal order,
which is the iteration order of Object.entries). -/
def serviceTypes : List (String × List String) :=
  [("heating", ["heat", "furnace", "boiler", "warm"]),
   ("cooling", ["cool", "air conditioning", "ac", "cold"]),
   ("maintenance", ["service", "tune up", "check"]),
   ("installation", ["install", "new", "replace"]),
   ("repair", ["repair", "fix", "broken"])]

/-- the for-loop with break over serviceTypes: first entry one of whose
keywords occurs in the lowercased message wins. -/
def detectServiceType (lowerMessage : String) : Option String :=
  (serviceTypes.find? (fun p => p.2.any (fun k => jsIncludes lowerMessage k))).map (·.1)

/-- match a literal phrase case-insensitively at the head of the input,
returning the rest on success. -/
def matchPhraseCI : List Char → List Char → Option (List Char)
  | rest, [] => some rest
  | [], _ :: _ => none
  | c :: cs, d :: ds => if lowerEq c d then matchPhraseCI cs ds else none

/-- split off the maximal run of characters satisfying p (greedy matching
of a character class, as the regex engine does for \s+ and [a-z]+). -/
def takeRun (p : Char → Bool) : List Char → List Char × List Char
  | [] => ([], [])
  | c :: cs =>
      if p c then
        let r := takeRun p cs
        (c :: r.1, r.2)
      else ([], c :: cs)

/-- after an alternation phrase has matched: \s+([a-z]+(?:\s+[a-z]+)?).
Returns the characters of capture group 1 (one word, or two words together
with the whitespace between them), or none if \s+ or the first [a-z]+
fails — in which case the regex engine abandons this alternative. -/
def captureNameAfter (rest : List Char) : Option (List Char) :=
  let ws := takeRun isJsSpace rest
  if ws.1.isEmpty then none
  else
    let w1 := takeRun isAsciiLetter ws.2
    if w1.1.isEmpty then none
    else
      let ws2 := takeRun isJsSpace w1.2
      let w2 := takeRun isAsciiLetter ws2.2
      if ws2.1.isEmpty || w2.1.isEmpty then some w1.1
      else some (w1.1 ++ ws2.1 ++ w2.1)

/-- one alternative of the regex at one position: the literal phrase,
then the capture pattern; none when either part fails (the engine then
backtracks to the next alternative). -/
def tryAlternative (s phrase : List Char) : Option (List Char) :=
  (matchPhraseCI s phrase).bind captureNameAfter

/-- try the whole regex (?:my name is|i\x27m|i am)\s+([a-z]+(?:\s+[a-z]+)?)
at one position: the three alternatives in declaration order. -/
def matchNameAt (s : List Char) : Option (List Char) :=
  (tryAlternative s (String.toList "my name is")).orElse fun _ =>
    (tryAlternative s (String.toList "i\x27m")).orElse fun _ =>
      tryAlternative s (String.toList "i am")

/-- leftmost-match scan of message.match(regex): try each start position
from the left, first success wins. -/
def scanName : List Char → Option (List Char)
  | [] => none
  | c :: cs =>
      match matchNameAt (c :: cs) with
      | some nm => some nm
      | none => scanName cs

/-- nameMatch = message.match(/(?:my name is|i\x27m|i am)\s+([a-z]+(?:\s+[a-z]+)?)/i);
if (nameMatch) analysis.contactInfo.name = nameMatch[1].trim(). -/
def extractName (message : String) : Option String :=
  (scanName message.toList).map (fun cs => jsTrim (String.mk cs))

/-- analyzeMessage: keyword/regex business-intelligence analysis of one
utterance. -/
def analyzeMessage (message : String) : Analysis :=
  let lowerMessage := jsToLower message
  let hasEmerg := emergencyKeywords.any (fun k => jsIncludes lowerMessage k)
  { hasEmergency := hasEmerg
    serviceType := detectServiceType lowerMessage
    urgencyLevel := if hasEmerg then "emergency" else "normal"
    contactInfo := { name := extractName message } }

/-- JavaScript truthiness of an optional string field: undefined and the
empty string are falsy, every other string is truthy. -/
def truthyStr : Option String → Bool
  | none => false
  | some s => !(s = "")

/-- session.leadInfo object. -/
structure LeadInfo where
  hasEmergency : Bool
  serviceType : Option String
  contactInfo : ContactInfo
  urgencyLevel : String
  qualificationScore : Nat
deriving DecidableEq, Repr

/-- leadInfo of a freshly created session (memory-fallback path and the
default used before any stored lead is merged in). -/
def initialLeadInfo : LeadInfo :=
  { hasEmergency := false
    serviceType := none
    contactInfo := { name := none }
    urgencyLevel := "normal"
    qualificationScore := 0 }

/-- calculateLeadScore: base 10, +50 emergency, +40 installation or +20
any other truthy service type, +15 extracted name, +30 emergency urgency,
capped by Math.min(score, 100).  The sequential score += steps of the
source are gathered into one sum. -/
def calculateLeadScore (leadInfo : LeadInfo) : Nat :=
  min
    (10 + (if leadInfo.hasEmergency then 50 else 0)
        + (if leadInfo.serviceType = some "installation" then 40
           else if truthyStr leadInfo.serviceType then 20 else 0)
        + (if truthyStr leadInfo.contactInfo.name then 15 else 0)
        + (if leadInfo.urgencyLevel = "emergency" then 30 else 0))
    100

/-- the four guarded leadInfo updates of the handler followed by the score
recomputation:
  if (analysis.hasEmergency) session.leadInfo.hasEmergency = true;
  if (analysis.serviceType) session.leadInfo.serviceType = analysis.serviceType;
  if (analysis.urgencyLevel) session.leadInfo.urgencyLevel = analysis.urgencyLevel;
  if (analysis.contactInfo.name) session.leadInfo.contactInfo.name = ...;
  session.leadInfo.qualificationScore = calculateLeadScore(session.leadInfo). -/
def mergeAnalysis (leadInfo : LeadInfo) (analysis : Analysis) : LeadInfo :=
  let l1 := if analysis.hasEmergency then { leadInfo with hasEmergency := true } else leadInfo
  let l2 := if truthyStr analysis.serviceType then { l1 with serviceType := analysis.serviceType } else l1
  let l3 := if !(analysis.urgencyLevel = "") then { l2 with urgencyLevel := analysis.urgencyLevel } else l2
  let l4 := if truthyStr analysis.contactInfo.name then
              { l3 with contactInfo := { l3.contactInfo with name := analysis.contactInfo.name } }
            else l3
  { l4 with qualificationScore := calculateLeadScore l4 }

/-- one processed turn of the handler, restricted to its effect on the
session leadInfo. -/
def processTurn (leadInfo : LeadInfo) (message : String) : LeadInfo :=
  mergeAnalysis leadInfo (analyzeMessage message)

/-- a sequence of processed turns within one call. -/
def processTurns (leadInfo : LeadInfo) (messages : List String) : LeadInfo :=
  messages.foldl processTurn leadInfo

/-- session leadInfo states reachable within a call that starts from a
fresh session. -/
inductive ReachableLead : LeadInfo → Prop
  | init : ReachableLead initialLeadInfo
  | step (l : LeadInfo) (message : String) :
      ReachableLead l → ReachableLead (processTurn l message)

/-! ## Lead persistence (updateLead / Cosmos upsert) -/

/-- lead document written by updateLead. -/
structure LeadDoc where
  id : String
  phoneNumber : String
  leadInfo : LeadInfo
  lastContact : String
  lastCallSid : String
  score : Nat
deriving DecidableEq, Repr

/-- the leads container, abstracted as a key-to-document map (Cosmos
upsert semantics: one document per id). -/
def LeadStore := String → Option LeadDoc

/-- leadsContainer.items.upsert(leadDoc): replace-or-insert by id. -/
def upsertItem (store : LeadStore) (doc : LeadDoc) : LeadStore :=
  fun k => if k = doc.id then some doc else store k

/-- updateLead on the connected path: builds the document (id and
partition key = phone number, score recomputed from leadInfo, lastContact
= the current timestamp) and upserts it.  The disconnected path leaves
the store untouched and is omitted. -/
def updateLead (store : LeadStore) (phoneNumber : String) (leadInfo : LeadInfo)
    (callSid now : String) : LeadStore :=
  upsertItem store
    { id := phoneNumber
      phoneNumber := phoneNumber
      leadInfo := leadInfo
      lastContact := now
      lastCallSid := callSid
      score := calculateLeadScore leadInfo }

/-! ## Business resolution (FirebaseService.findBusinessByPhone) -/

/-- business profile document fields used by the resolver. -/
structure BusinessProfile where
  companyName : String
  industry : String
  businessType : String
deriving DecidableEq, Repr

/-- services object of a business document. -/
structure BusinessServices where
  list : List String
deriving DecidableEq, Repr

/-- opening hours pair. -/
structure DayHours where
  openTime : String
  closeTime : String
deriving DecidableEq, Repr

/-- schedule object of a business document. -/
structure BusinessSchedule where
  weekdayHours : DayHours
  weekendHours : DayHours
deriving DecidableEq, Repr

/-- data field of a business document. -/
structure BusinessData where
  profile : BusinessProfile
  services : BusinessServices
  schedule : BusinessSchedule
deriving DecidableEq, Repr

/-- one matching row of a Firestore business query. -/
structure BusinessRow where
  docId : String
  data : BusinessData
deriving DecidableEq, Repr

/-- result object of findBusinessByPhone. -/
structure BusinessLookup where
  businessId : String
  data : BusinessData
  found : Bool
  isDefault : Bool
  isSharedNumber : Bool
deriving DecidableEq, Repr

/-- outcome of one Firestore query: a row, no row, or a thrown error. -/
inductive QueryOutcome (α : Type) where
  | ok (a : α)
  | thrown (message : String)
deriving DecidableEq, Repr

/-- getDefaultBusinessConfig: the fixed default tenant. -/
def getDefaultBusinessConfig : BusinessLookup :=
  { businessId := "default"
    data :=
      { profile :=
          { companyName := "Blue Caller HVAC"
            industry := "hvac"
            businessType := "hvac" }
        services :=
          { list := ["heating repair", "cooling repair", "maintenance", "installation"] }
        schedule :=
          { weekdayHours := { openTime := "08:00", closeTime := "17:00" }
            weekendHours := { openTime := "09:00", closeTime := "15:00" } } }
    found := false
    isDefault := true
    isSharedNumber := false }

/-- findBusinessByPhone.  The two Firestore queries (direct number match,
then shared-development-number match) are supplied as oracles from the
dialed number to a query outcome; an uninitialized Firebase handle, an
empty result from both queries, or a thrown error all end in the default
config, and the function is total by construction (the catch branch is
the `thrown` case). -/
def findBusinessByPhone (initialized : Bool)
    (primaryQuery sharedQuery : String → QueryOutcome (Option BusinessRow))
    (phoneNumber : String) : BusinessLookup :=
  if !initialized then getDefaultBusinessConfig
  else
    match primaryQuery phoneNumber with
    | .thrown _ => getDefaultBusinessConfig
    | .ok (some row) =>
        { businessId := row.docId, data := row.data
          found := true, isDefault := false, isSharedNumber := false }
    | .ok none =>
        match sharedQuery phoneNumber with
        | .thrown _ => getDefaultBusinessConfig
        | .ok (some row) =>
            { businessId := row.docId, data := row.data
              found := true, isDefault := false, isSharedNumber := true }
        | .ok none => getDefaultBusinessConfig

/-! ## The enhanced voice-stream webhook handler (module.exports) -/

/-- parsed Twilio form body: SpeechResult, CallSid, From, and Confidence
(parseFloat(formData.Confidence || 0), modelled as a rational). -/
structure TwilioForm where
  speechResult : Option String
  callSid : String
  fromNumber : String
  confidence : ℚ
deriving DecidableEq

/-- req.method, restricted to what the handlers branch on. -/
inductive HttpMethod where
  | get
  | post
deriving DecidableEq, Repr

/-- one inbound webhook request: method and (for POST) the parsed form. -/
structure WebhookRequest where
  method : HttpMethod
  body : Option TwilioForm
deriving DecidableEq

/-- conversation session as used by the handler: message history and the
aggregated leadInfo. -/
structure Session where
  messages : List (String × String)
  leadInfo : LeadInfo

/-- outcomes of the awaited external steps inside the try block.  Each is
an Except so that the theorem statements quantify over arbitrary internal
failures (a throw in the step) as well as successes. -/
structure HandlerEnv where
  session : Except String Session
  aiResponse : Except String String

/-- context.res as set by the handler: a text/xml TwiML document or the
plain readiness response of the non-webhook branch. -/
inductive HandlerResponse where
  | xml (body : String)
  | plain (status : Nat) (body : String)
deriving DecidableEq, Repr

/-- clarificationTwiml of the low-confidence branch, after .trim(). -/
def clarificationTwiml : String :=
  "<Response>\n            <Say voice=\"en-US-JennyNeural\">Sorry, didn\x27t catch that. What can I help you with?</Say>\n            <Gather input=\"speech\" timeout=\"30\" speechTimeout=\"auto\" action=\"https://func-blucallerai-dkavgbhvdkesgmer.westus-01.azurewebsites.net/api/voice-stream\" method=\"POST\">\n              <Say voice=\"en-US-JennyNeural\">I\x27m listening.</Say>\n            </Gather>\n            <Redirect>https://func-blucallerai-dkavgbhvdkesgmer.westus-01.azurewebsites.net/api/voice-twiml</Redirect>\n          </Response>"

/-- responseTwiml of the normal-turn branch (aiResponse and
followUpPrompt interpolated), after .trim(). -/
def responseTwiml (aiResponse followUpPrompt : String) : String :=
  "<Response>\n            <Say voice=\"en-US-JennyNeural\">" ++ aiResponse ++
    "</Say>\n            <Gather input=\"speech\" timeout=\"30\" speechTimeout=\"auto\" action=\"https://func-blucallerai-dkavgbhvdkesgmer.westus-01.azurewebsites.net/api/voice-stream\" method=\"POST\">\n              <Say voice=\"en-US-JennyNeural\">" ++ followUpPrompt ++
    "</Say>\n            </Gather>\n            <Redirect>https://func-blucallerai-dkavgbhvdkesgmer.westus-01.azurewebsites.net/api/voice-twiml</Redirect>\n          </Response>"

/-- noSpeechTwiml of the empty-speech branch, after .trim(). -/
def noSpeechTwiml : String :=
  "<Response>\n            <Say voice=\"en-US-JennyNeural\">Didn\x27t hear you. How can I help?</Say>\n            <Gather input=\"speech\" timeout=\"30\" speechTimeout=\"auto\" action=\"https://func-blucallerai-dkavgbhvdkesgmer.westus-01.azurewebsites.net/api/voice-stream\" method=\"POST\">\n              <Say voice=\"en-US-JennyNeural\">I\x27m listening.</Say>\n            </Gather>\n            <Redirect>https://func-blucallerai-dkavgbhvdkesgmer.westus-01.azurewebsites.net/api/voice-twiml</Redirect>\n          </Response>"

/-- errorTwiml of the catch branch (static hangup markup), after .trim(). -/
def errorTwiml : String :=
  "<Response>\n        <Say voice=\"en-US-JennyNeural\">Sorry, I had an error. Please try calling again.</Say>\n        <Hangup />\n      </Response>"

/-- the follow-up determination block of the handler:
  let followUpPrompt = "Anything else I can help with?";
  if (session.leadInfo.hasEmergency) ... address prompt
  else if (session.leadInfo.serviceType && !session.leadInfo.contactInfo.name) ... name prompt. -/
def followUpPromptFor (leadInfo : LeadInfo) : String :=
  if leadInfo.hasEmergency then
    "Can I get your address to send someone out?"
  else if truthyStr leadInfo.serviceType && !truthyStr leadInfo.contactInfo.name then
    "What\x27s your name for our records?"
  else "Anything else I can help with?"

/-- the POST-with-body branch of the try block: confidence filter, then
the normal-turn pipeline (session, analysis, leadInfo merge, AI reply,
follow-up selection), else the no-speech branch.  A thrown step is
propagated to the surrounding catch. -/
def voiceStreamBody (form : TwilioForm) (env : HandlerEnv) :
    Except String HandlerResponse :=
  if decide (form.confidence < 3/10) && truthyStr form.speechResult
      && decide ((jsTrim (form.speechResult.getD "")).length < 3) then
    .ok (.xml clarificationTwiml)
  else if truthyStr form.speechResult
      && decide (0 < (jsTrim (form.speechResult.getD "")).length) then
    match env.session with
    | .error e => .error e
    | .ok session =>
        let speechResult := form.speechResult.getD ""
        let analysis := analyzeMessage speechResult
        let leadInfo := mergeAnalysis session.leadInfo analysis
        match env.aiResponse with
        | .error e => .error e
        | .ok aiResponse =>
            .ok (.xml (responseTwiml aiResponse (followUpPromptFor leadInfo)))
  else
    .ok (.xml noSpeechTwiml)

/-- the whole enhanced handler: try/catch around the POST branch, the
catch converting any thrown error into the static error TwiML; non-POST
requests get the plain readiness response. -/
def voiceStreamHandler (req : WebhookRequest) (env : HandlerEnv) : HandlerResponse :=
  match req.method, req.body with
  | .post, some form =>
      match voiceStreamBody form env with
      | .ok r => r
      | .error _ => .xml errorTwiml
  | _, _ => .plain 200 "Voice stream endpoint ready"

/-! ## The legacy voice-stream webhook handler (src/voice-stream/index.js) -/

/-- awaited external step of the legacy handler. -/
structure LegacyEnv where
  aiResponse : Except String String

/-- legacy responseTwiml (aiResponse interpolated), after .trim(). -/
def legacyResponseTwiml (aiResponse : String) : String :=
  "<Response>\n            <Say voice=\"en-US-JennyNeural\">" ++ aiResponse ++
    "</Say>\n            <Gather input=\"speech\" timeout=\"30\" speechTimeout=\"auto\" action=\"https://func-blucallerai-dkavgbhvdkesgmer.westus-01.azurewebsites.net/api/voice-stream\" method=\"POST\">\n              <Say voice=\"en-US-JennyNeural\">What else would you like to know?</Say>\n            </Gather>\n            <Redirect>https://func-blucallerai-dkavgbhvdkesgmer.westus-01.azurewebsites.net/api/voice-twiml</Redirect>\n          </Response>"

/-- legacy noSpeechTwiml, after .trim(). -/
def legacyNoSpeechTwiml : String :=
  "<Response>\n            <Say voice=\"en-US-JennyNeural\">I didn\x27t catch that. Could you please say that again?</Say>\n            <Gather input=\"speech\" timeout=\"30\" speechTimeout=\"auto\" action=\"https://func-blucallerai-dkavgbhvdkesgmer.westus-01.azurewebsites.net/api/voice-stream\" method=\"POST\">\n              <Say voice=\"en-US-JennyNeural\">I\x27m listening...</Say>\n            </Gather>\n            <Redirect>https://func-blucallerai-dkavgbhvdkesgmer.westus-01.azurewebsites.net/api/voice-twiml</Redirect>\n          </Response>"

/-- legacy errorTwiml of the catch branch, after .trim(). -/
def legacyErrorTwiml : String :=
  "<Response>\n        <Say voice=\"en-US-JennyNeural\">I\x27m sorry, I encountered an error. Please try calling again.</Say>\n        <Hangup />\n      </Response>"

/-- POST-with-body branch of the legacy try block: no confidence filter,
just the non-empty-speech test, the AI call, and the two TwiML shapes. -/
def legacyVoiceStreamBody (form : TwilioForm) (env : LegacyEnv) :
    Except String HandlerResponse :=
  if truthyStr form.speechResult
      && decide (0 < (jsTrim (form.speechResult.getD "")).length) then
    match env.aiResponse with
    | .error e => .error e
    | .ok aiResponse => .ok (.xml (legacyResponseTwiml aiResponse))
  else
    .ok (.xml legacyNoSpeechTwiml)

/-- the whole legacy handler with its try/catch. -/
def legacyVoiceStreamHandler (req : WebhookRequest) (env : LegacyEnv) : HandlerResponse :=
  match req.method, req.body with
  | .post, some form =>
      match legacyVoiceStreamBody form env with
      | .ok r => r
      | .error _ => .xml legacyErrorTwiml
  | _, _ => .plain 200 "Voice stream endpoint ready"

/-! ## The voice-twiml greeting handlers and VoiceManager.createErrorResponse -/

/-- AzureSpeechService.getTwilioFallbackVoice: voice choice by emergency
context. -/
def getTwilioFallbackVoice (isEmergency : Bool) : String :=
  if isEmergency then "en-US-Neural2-A" else "en-US-Neural2-H"

/-- VoiceManager.escapeXML: the five sequential global replaces (the
ampersand pass runs first, so the composition equals this per-character
expansion). -/
def escapeXML (text : String) : String :=
  String.mk (text.toList.flatMap (fun c =>
    if c = '&' then String.toList "&amp;"
    else if c = '<' then String.toList "&lt;"
    else if c = '>' then String.toList "&gt;"
    else if c = '"' then String.toList "&quot;"
    else if c = '\x27' then String.toList "&apos;"
    else [c]))

/-- VoiceManager.createErrorResponse: Say with the non-emergency fallback
voice and the escaped message, then Hangup, after .trim(). -/
def createErrorResponse (errorMessage : String) : String :=
  "<Response>\n                <Say voice=\"" ++ getTwilioFallbackVoice false ++
    "\">\n                    " ++ escapeXML errorMessage ++
    "\n                </Say>\n                <Hangup />\n            </Response>"

/-- VoiceManager.createAlloyTurboTwiML: Play of the uploaded audio URL,
Gather with the emergency-dependent timeout, Redirect, after .trim(). -/
def createAlloyTurboTwiML (audioUrl : String) (isEmergency : Bool) : String :=
  let timeout := if isEmergency then "15" else "30"
  "<Response>\n                <Play>" ++ audioUrl ++
    "</Play>\n                <Gather input=\"speech\" \n                        timeout=\"" ++
    timeout ++
    "\" \n                        speechTimeout=\"auto\" \n                        action=\"https://func-blucallerai-dkavgbhvdkesgmer.westus-01.azurewebsites.net/api/voice-stream\" \n                        method=\"POST\">\n                </Gather>\n                <Redirect>https://func-blucallerai-dkavgbhvdkesgmer.westus-01.azurewebsites.net/api/voice-twiml</Redirect>\n            </Response>"

/-- outcome of the awaited synthesis-and-upload pipeline inside
VoiceManager.generateVoiceResponse: the blob URL of the cached audio, or
a thrown error (failed synthesis, failed upload, or any other rejection —
the all-or-nothing policy rethrows every failure to the caller). -/
structure VoiceTwimlEnv where
  audioUrl : Except String String

/-- VoiceManager.generateVoiceResponse for a non-emergency context: on a
successful synthesis-and-upload it returns the Alloy Turbo TwiML for the
audio URL; every failure propagates as a throw. -/
def generateVoiceResponse (audioUrl : Except String String) (isEmergency : Bool) :
    Except String String :=
  match audioUrl with
  | .error e => .error e
  | .ok url => .ok (createAlloyTurboTwiML url isEmergency)

/-- fixed error message the enhanced voice-twiml catch branch passes to
createErrorResponse. -/
def voiceTwimlErrorMessage : String :=
  "Thank you for calling Blue Caller HVAC. I\x27m having some technical difficulties right now. Please try calling back in just a moment."

/-- the enhanced voice-twiml greeting handler (src/voice-twiml/index.js):
try { synthesize the fixed greeting and serve the resulting TwiML }
catch { serve createErrorResponse(...) with status 200 }. -/
def voiceTwimlHandler (env : VoiceTwimlEnv) : HandlerResponse :=
  match generateVoiceResponse env.audioUrl false with
  | .ok voiceResponse => .xml voiceResponse
  | .error _ => .xml (createErrorResponse voiceTwimlErrorMessage)

/-- static speech-recognition greeting TwiML of the legacy voice-twiml
handler, after .trim(). -/
def legacyGreetingTwiml : String :=
  "<Response>\n        <Say voice=\"en-US-JennyNeural\">\n          Hi, this is Blue Caller HVAC. How can I help you today?\n        </Say>\n        <Gather input=\"speech\" timeout=\"30\" speechTimeout=\"auto\" action=\"https://func-blucallerai-dkavgbhvdkesgmer.westus-01.azurewebsites.net/api/voice-stream\" method=\"POST\">\n          <Say voice=\"en-US-JennyNeural\">\n            I\x27m listening.\n          </Say>\n        </Gather>\n        <Redirect>https://func-blucallerai-dkavgbhvdkesgmer.westus-01.azurewebsites.net/api/voice-twiml</Redirect>\n      </Response>"

/-- fallback TwiML of the legacy voice-twiml catch branch, after .trim(). -/
def legacyFallbackTwiml : String :=
  "<Response>\n        <Say voice=\"en-US-JennyNeural\">\n          I\x27m having trouble right now. Please try again later.\n        </Say>\n      </Response>"

/-- try block of the legacy voice-twiml handler: a pure template literal,
so it always returns the static greeting TwiML and never throws. -/
def legacyVoiceTwimlBody : Except String HandlerResponse :=
  .ok (.xml legacyGreetingTwiml)

/-- the legacy voice-twiml handler (the second voice-twiml variant in the
repository): try/catch whose catch serves the static fallback TwiML. -/
def legacyVoiceTwimlHandler : HandlerResponse :=
  match legacyVoiceTwimlBody with
  | .ok r => r
  | .error _ => .xml legacyFallbackTwiml

/-! ## Predicates used by the theorems -/

/-- shape of every capture of the name regex: one [a-z]+ word, or two
such words joined by the \s+ run between them. -/
def NameShape (nm : List Char) : Prop :=
  (nm ≠ [] ∧ nm.all isAsciiLetter = true) ∨
  (∃ w1 ws w2 : List Char,
      nm = w1 ++ ws ++ w2 ∧ w1 ≠ [] ∧ ws ≠ [] ∧ w2 ≠ [] ∧
      w1.all isAsciiLetter = true ∧ ws.all isJsSpace = true ∧ w2.all isAsciiLetter = true)

/-- the response is one of the four TwiML documents the enhanced handler
can serve (the error one being the static hangup markup). -/
def IsServedTwiml (r : HandlerResponse) : Prop :=
  r = .xml clarificationTwiml ∨ r = .xml noSpeechTwiml ∨ r = .xml errorTwiml ∨
    ∃ a f, r = .xml (responseTwiml a f)

/-- the response is one of the three TwiML documents the legacy handler
can serve. -/
def IsServedLegacyTwiml (r : HandlerResponse) : Prop :=
  r = .xml legacyNoSpeechTwiml ∨ r = .xml legacyErrorTwiml ∨
    ∃ a, r = .xml (legacyResponseTwiml a)

/-- the response is one of the TwiML documents the enhanced voice-twiml
greeting handler can serve: a Play/Gather document for some uploaded
audio URL, or the createErrorResponse hangup markup of its catch. -/
def IsServedVoiceTwiml (r : HandlerResponse) : Prop :=
  r = .xml (createErrorResponse voiceTwimlErrorMessage) ∨
    ∃ url, r = .xml (createAlloyTurboTwiML url false)

/-- the response is one of the two TwiML documents the legacy voice-twiml
handler can serve. -/
def IsServedLegacyVoiceTwiml (r : HandlerResponse) : Prop :=
  r = .xml legacyGreetingTwiml ∨ r = .xml legacyFallbackTwiml

/-! ## Helper lemmas -/

/-- a truthy optional string is not none. -/
theorem truthyStr_ne_none {o : Option String} (h : truthyStr o = true) : o ≠ none := by
  cases o with
  | none => simp [truthyStr] at h
  | some s => simp

/-- merging never clears the emergency flag. -/
theorem mergeAnalysis_hasEmergency_mono (l : LeadInfo) (a : Analysis)
    (h : l.hasEmergency = true) : (mergeAnalysis l a).hasEmergency = true := by
  unfold mergeAnalysis
  dsimp only
  split <;> split <;> split <;> split <;> simp [h]

/-- serviceType after a merge: the analysis value when truthy, else the
previous session value. -/
theorem mergeAnalysis_serviceType (l : LeadInfo) (a : Analysis) :
    (mergeAnalysis l a).serviceType
      = if truthyStr a.serviceType then a.serviceType else l.serviceType := by
  unfold mergeAnalysis
  dsimp only
  split_ifs <;> rfl

/-- merging never clears the service type. -/
theorem mergeAnalysis_serviceType_mono (l : LeadInfo) (a : Analysis)
    (h : l.serviceType ≠ none) : (mergeAnalysis l a).serviceType ≠ none := by
  rw [mergeAnalysis_serviceType]
  split
  · exact truthyStr_ne_none (by assumption)
  · exact h

/-! ## Theorems for the claims -/

/-- C9: for every leadInfo input, calculateLeadScore returns an integer
between 10 and 100 inclusive — base 10, only non-negative bonuses, capped
at 100, so a scored lead never has score 0 (tighter than the 0–100 range
the spec states). -/
theorem C9_score_range (l : LeadInfo) :
    10 ≤ calculateLeadScore l ∧ calculateLeadScore l ≤ 100 := by
  unfold calculateLeadScore
  split_ifs <;> omega

/-- C10: in every per-utterance analysis returned by analyzeMessage,
hasEmergency holds exactly when urgencyLevel is "emergency": both are set
together by the one emergency-keyword substring test, and urgencyLevel is
"normal" otherwise. -/
theorem C10_emergency_iff_urgency (message : String) :
    (analyzeMessage message).hasEmergency = true ↔
      (analyzeMessage message).urgencyLevel = "emergency" := by
  unfold analyzeMessage
  dsimp only
  split <;> rename_i h
  · simpa using h
  · constructor
    · intro hc; exact absurd hc (by simpa using h)
    · intro hc; exact absurd hc (by decide)

/-- C5: the lead upsert is idempotent with respect to the stored score —
upserting twice with the same leadInfo and phone number (even at
different timestamps) leaves the stored record score unchanged, since
the score is recomputed from the identical leadInfo on both calls. -/
theorem C5_upsert_idempotent_score (store : LeadStore) (phoneNumber : String)
    (leadInfo : LeadInfo) (callSid t1 t2 : String) :
    (updateLead (updateLead store phoneNumber leadInfo callSid t1)
        phoneNumber leadInfo callSid t2 phoneNumber).map LeadDoc.score
      = ((updateLead store phoneNumber leadInfo callSid t1)
          phoneNumber).map LeadDoc.score := by
  simp [updateLead, upsertItem]

/-- C3 counterexample: the freshly created session is a reachable state
whose stored qualificationScore is the independent initial constant 0,
while recomputing calculateLeadScore on the same leadInfo yields 10 — so
the stored score is not always the recomputation on the current leadInfo. -/
theorem C3_counterexample :
    ReachableLead initialLeadInfo ∧
      initialLeadInfo.qualificationScore = 0 ∧
      calculateLeadScore initialLeadInfo = 10 ∧
      initialLeadInfo.qualificationScore ≠ calculateLeadScore initialLeadInfo :=
  ⟨ReachableLead.init, rfl, by decide, by decide⟩

/-- C3 amended: calculateLeadScore is a pure deterministic function of
the other leadInfo fields (it ignores the stored score), and after every
processed turn the session stored qualificationScore equals the
recomputation of calculateLeadScore on the current leadInfo; only the
freshly created, never-scored session carries the independent initial
value 0 instead of the recomputation 10. -/
theorem C3_amended_score_recomputed :
    (∀ (l : LeadInfo) (x : ℕ),
        calculateLeadScore { l with qualificationScore := x } = calculateLeadScore l) ∧
    (∀ (l : LeadInfo) (message : String),
        (processTurn l message).qualificationScore
          = calculateLeadScore (processTurn l message)) :=
  ⟨fun _ _ => rfl, fun _ _ => rfl⟩

/-- C2 counterexample: for the utterance "Hi, my name is John Smith, I
need a new air conditioning system", the ordered service-type scan hits
the cooling keyword "air conditioning" before the installation keywords,
so serviceType is "cooling", not "installation", and the score of the
turn on a fresh session is 45, below 75. -/
theorem C2_counterexample :
    (analyzeMessage "Hi, my name is John Smith, I need a new air conditioning system").serviceType
        ≠ some "installation" ∧
      ¬ 75 ≤ (processTurn initialLeadInfo
          "Hi, my name is John Smith, I need a new air conditioning system").qualificationScore := by
  constructor
  · decide
  · decide

/-- C2 amended: for that utterance on an HVAC tenant the analysis
extracts contactName "John Smith", classifies serviceType as "cooling"
(first match in declaration order), and the resulting qualification score
is 45 (base 10 + 20 non-installation service + 15 name). -/
theorem C2_amended :
    (analyzeMessage "Hi, my name is John Smith, I need a new air conditioning system").contactInfo.name
        = some "John Smith" ∧
      (analyzeMessage "Hi, my name is John Smith, I need a new air conditioning system").serviceType
        = some "cooling" ∧
      (processTurn initialLeadInfo
          "Hi, my name is John Smith, I need a new air conditioning system").qualificationScore
        = 45 := by
  refine ⟨by decide, by decide, by decide⟩

/-- C4: within a single call, across every sequence of processed turns,
the session leadInfo is merged monotonically — once hasEmergency is true
it never returns to false, and once serviceType is non-null it never
returns to null. -/
theorem C4_monotonic_merge (leadInfo : LeadInfo) (messages : List String) :
    (leadInfo.hasEmergency = true → (processTurns leadInfo messages).hasEmergency = true) ∧
      (leadInfo.serviceType ≠ none → (processTurns leadInfo messages).serviceType ≠ none) := by
  induction messages generalizing leadInfo with
  | nil => exact ⟨fun h => h, fun h => h⟩
  | cons m ms ih =>
      refine ⟨fun h => ?_, fun h => ?_⟩
      · exact (ih (processTurn leadInfo m)).1 (mergeAnalysis_hasEmergency_mono _ _ h)
      · exact (ih (processTurn leadInfo m)).2 (mergeAnalysis_serviceType_mono _ _ h)

/-- C4 witness: a session that already has the emergency flag and a
service type keeps both through a further processed turn. -/
theorem C4_monotonic_merge_witness :
    (processTurns { initialLeadInfo with hasEmergency := true, serviceType := some "repair" }
        ["hello there"]).hasEmergency = true ∧
      (processTurns { initialLeadInfo with hasEmergency := true, serviceType := some "repair" }
          ["hello there"]).serviceType ≠ none :=
  ⟨(C4_monotonic_merge _ _).1 rfl, (C4_monotonic_merge _ _).2 (by decide)⟩

/-- C6: business resolution is total and never raises — an uninitialized
directory handle, a thrown lookup (service unreachable, bad credentials),
or an empty result from both queries all yield the fixed default tenant,
whose company name is "Blue Caller HVAC", industry "hvac", and service
list is the fixed four-entry list. -/
theorem C6_default_on_no_match (initialized : Bool)
    (primaryQuery sharedQuery : String → QueryOutcome (Option BusinessRow))
    (phoneNumber : String)
    (h : initialized = false
        ∨ (∃ e, primaryQuery phoneNumber = .thrown e)
        ∨ (primaryQuery phoneNumber = .ok none
            ∧ ((∃ e, sharedQuery phoneNumber = .thrown e) ∨ sharedQuery phoneNumber = .ok none))) :
    findBusinessByPhone initialized primaryQuery sharedQuery phoneNumber
        = getDefaultBusinessConfig
      ∧ getDefaultBusinessConfig.data.profile.companyName = "Blue Caller HVAC"
      ∧ getDefaultBusinessConfig.data.profile.industry = "hvac"
      ∧ getDefaultBusinessConfig.data.services.list
          = ["heating repair", "cooling repair", "maintenance", "installation"] := by
  refine ⟨?_, rfl, rfl, rfl⟩
  unfold findBusinessByPhone
  cases initialized with
  | false => simp
  | true =>
      rcases h with h | ⟨e, he⟩ | ⟨h1, h2⟩
      · exact absurd h (by simp)
      · simp [he]
      · rcases h2 with ⟨e, he⟩ | he <;> simp [h1, he]

/-- C6 witness: an unknown number against an initialized directory whose
queries both come back empty resolves to the default tenant. -/
theorem C6_default_on_no_match_witness :
    findBusinessByPhone true (fun _ => .ok none) (fun _ => .ok none) "+15551234567"
        = getDefaultBusinessConfig
      ∧ getDefaultBusinessConfig.data.profile.companyName = "Blue Caller HVAC"
      ∧ getDefaultBusinessConfig.data.profile.industry = "hvac"
      ∧ getDefaultBusinessConfig.data.services.list
          = ["heating repair", "cooling repair", "maintenance", "installation"] :=
  C6_default_on_no_match true (fun _ => .ok none) (fun _ => .ok none) "+15551234567"
    (Or.inr (Or.inr ⟨rfl, Or.inr rfl⟩))

/-- the try block of the enhanced handler either returns one of its
crafted TwiML documents or throws to the surrounding catch. -/
theorem voiceStreamBody_cases (form : TwilioForm) (env : HandlerEnv) :
    (∃ r, voiceStreamBody form env = .ok r ∧ IsServedTwiml r)
      ∨ (∃ e, voiceStreamBody form env = .error e) := by
  unfold voiceStreamBody
  split
  · exact Or.inl ⟨_, rfl, Or.inl rfl⟩
  · split
    · cases hs : env.session with
      | error e => exact Or.inr ⟨e, rfl⟩
      | ok sess =>
          cases ha : env.aiResponse with
          | error e => exact Or.inr ⟨e, rfl⟩
          | ok a => exact Or.inl ⟨_, rfl, Or.inr (Or.inr (Or.inr ⟨a, _, rfl⟩))⟩
    · exact Or.inl ⟨_, rfl, Or.inr (Or.inl rfl)⟩

/-- the try block of the legacy handler either returns one of its crafted
TwiML documents or throws to the surrounding catch. -/
theorem legacyVoiceStreamBody_cases (form : TwilioForm) (env : LegacyEnv) :
    (∃ r, legacyVoiceStreamBody form env = .ok r ∧ IsServedLegacyTwiml r)
      ∨ (∃ e, legacyVoiceStreamBody form env = .error e) := by
  unfold legacyVoiceStreamBody
  split
  · cases ha : env.aiResponse with
    | error e => exact Or.inr ⟨e, rfl⟩
    | ok a => exact Or.inl ⟨_, rfl, Or.inr (Or.inr ⟨a, rfl⟩)⟩
  · exact Or.inl ⟨_, rfl, Or.inl rfl⟩

/-- C7: for every POST webhook with a parsed form body and every
combination of outcomes of the awaited internal steps (session load, LLM
call, and greeting synthesis-and-upload each succeeding or throwing),
every webhook handler of the repository — the two voice-stream turn
handlers and the two voice-twiml greeting handlers — sets a response
that is one of its crafted TwiML documents, in the worst case a static
hangup markup (the errorTwiml of the turn handlers, or the
VoiceManager.createErrorResponse document of the enhanced greeting
handler).  No path propagates an unhandled exception to the telephony
layer: the catch is the last alternative of every handler definition. -/
theorem C7_always_twiml (req : WebhookRequest) (env : HandlerEnv) (envL : LegacyEnv)
    (envT : VoiceTwimlEnv)
    (h : req.method = .post ∧ req.body.isSome = true) :
    IsServedTwiml (voiceStreamHandler req env)
      ∧ IsServedLegacyTwiml (legacyVoiceStreamHandler req envL)
      ∧ IsServedVoiceTwiml (voiceTwimlHandler envT)
      ∧ IsServedLegacyVoiceTwiml legacyVoiceTwimlHandler := by
  obtain ⟨method, body⟩ := req
  obtain ⟨hm, hb⟩ := h
  subst hm
  obtain ⟨form, hf⟩ := Option.isSome_iff_exists.mp hb
  subst hf
  refine ⟨?_, ?_, ?_, Or.inl rfl⟩
  · show IsServedTwiml (match voiceStreamBody form env with
      | .ok r => r
      | .error _ => .xml errorTwiml)
    rcases voiceStreamBody_cases form env with ⟨r, hr, htw⟩ | ⟨e, he⟩
    · rw [hr]; exact htw
    · rw [he]; exact Or.inr (Or.inr (Or.inl rfl))
  · show IsServedLegacyTwiml (match legacyVoiceStreamBody form envL with
      | .ok r => r
      | .error _ => .xml legacyErrorTwiml)
    rcases legacyVoiceStreamBody_cases form envL with ⟨r, hr, htw⟩ | ⟨e, he⟩
    · rw [hr]; exact htw
    · rw [he]; exact Or.inr (Or.inl rfl)
  · show IsServedVoiceTwiml (voiceTwimlHandler envT)
    unfold voiceTwimlHandler generateVoiceResponse
    cases ha : envT.audioUrl with
    | error e => exact Or.inl rfl
    | ok url => exact Or.inr ⟨url, rfl⟩

/-- C7 witness: a concrete turn webhook in which every awaited step
throws (session load, LLM call, greeting synthesis) still gets a crafted
TwiML response from all four handlers. -/
theorem C7_always_twiml_witness :
    IsServedTwiml
        (voiceStreamHandler
          { method := .post
            body := some
              { speechResult := some "my furnace is broken"
                callSid := "CA100", fromNumber := "+15550100", confidence := 9/10 } }
          { session := .error "db down", aiResponse := .error "llm down" })
      ∧ IsServedLegacyTwiml
          (legacyVoiceStreamHandler
            { method := .post
              body := some
                { speechResult := some "my furnace is broken"
                  callSid := "CA100", fromNumber := "+15550100", confidence := 9/10 } }
            { aiResponse := .error "llm down" })
      ∧ IsServedVoiceTwiml (voiceTwimlHandler { audioUrl := .error "synthesis failed" })
      ∧ IsServedLegacyVoiceTwiml legacyVoiceTwimlHandler :=
  C7_always_twiml _ _ _ { audioUrl := .error "synthesis failed" } ⟨rfl, rfl⟩

/-- when the low-confidence filter condition holds, the handler answers
with the clarification TwiML, whatever the outcomes of the session load
and the LLM call (neither step is reached). -/
theorem voiceStreamHandler_clarification (form : TwilioForm) (env : HandlerEnv)
    (hcond : (decide (form.confidence < 3/10) && truthyStr form.speechResult
        && decide ((jsTrim (form.speechResult.getD "")).length < 3)) = true) :
    voiceStreamHandler { method := .post, body := some form } env
      = .xml clarificationTwiml := by
  show (match voiceStreamBody form env with
        | .ok r => r
        | .error _ => .xml errorTwiml) = _
  unfold voiceStreamBody
  rw [hcond]
  rfl

/-- when the filter condition fails, the speech text is truthy with
non-empty trim, and both awaited steps succeed, the handler answers with
the normal-turn response TwiML. -/
theorem voiceStreamHandler_processed (form : TwilioForm) (env : HandlerEnv)
    (sess : Session) (a : String)
    (hsess : env.session = .ok sess) (ha : env.aiResponse = .ok a)
    (hcond1 : (decide (form.confidence < 3/10) && truthyStr form.speechResult
        && decide ((jsTrim (form.speechResult.getD "")).length < 3)) = false)
    (hcond2 : (truthyStr form.speechResult
        && decide (0 < (jsTrim (form.speechResult.getD "")).length)) = true) :
    voiceStreamHandler { method := .post, body := some form } env
      = .xml (responseTwiml a
          (followUpPromptFor
            (mergeAnalysis sess.leadInfo (analyzeMessage (form.speechResult.getD ""))))) := by
  show (match voiceStreamBody form env with
        | .ok r => r
        | .error _ => .xml errorTwiml) = _
  unfold voiceStreamBody
  rw [hcond1, hcond2, hsess, ha]
  rfl

/-- C1 counterexample: a recognition result with confidence 0.1 — below
the 0.3 threshold — whose text "hello" trims to 5 ≥ 3 characters is NOT
rejected: the handler runs the normal turn (analysis, LLM reply, response
TwiML) instead of returning the repetition-request markup, because the
filter also requires the trimmed text to be shorter than 3 characters. -/
theorem C1_counterexample :
    voiceStreamHandler
        { method := .post
          body := some { speechResult := some "hello", callSid := "CA123",
                         fromNumber := "+15550123", confidence := 1/10 } }
        { session := .ok { messages := [], leadInfo := initialLeadInfo },
          aiResponse := .ok "Okay." }
      = .xml (responseTwiml "Okay." "Anything else I can help with?")
    ∧ voiceStreamHandler
        { method := .post
          body := some { speechResult := some "hello", callSid := "CA123",
                         fromNumber := "+15550123", confidence := 1/10 } }
        { session := .ok { messages := [], leadInfo := initialLeadInfo },
          aiResponse := .ok "Okay." }
      ≠ .xml clarificationTwiml := by
  have hlen : (jsTrim ((some "hello").getD "")).length = 5 := rfl
  have heq : voiceStreamHandler
      { method := .post
        body := some { speechResult := some "hello", callSid := "CA123",
                       fromNumber := "+15550123", confidence := 1/10 } }
      { session := .ok { messages := [], leadInfo := initialLeadInfo },
        aiResponse := .ok "Okay." }
      = .xml (responseTwiml "Okay." "Anything else I can help with?") :=
    voiceStreamHandler_processed
      { speechResult := some "hello", callSid := "CA123",
        fromNumber := "+15550123", confidence := 1/10 }
      { session := .ok { messages := [], leadInfo := initialLeadInfo },
        aiResponse := .ok "Okay." }
      { messages := [], leadInfo := initialLeadInfo } "Okay." rfl rfl
      (by rw [hlen]; simp) (by decide)
  exact ⟨heq, fun hbad => absurd (heq.symm.trans hbad) (by decide)⟩

/-- C1 amended: a result with confidence exactly 0.3 and non-blank text
is accepted and processed as a normal turn (inclusive boundary, as the
claim states); but a result below threshold is rejected with the
repetition-request markup — without reaching analysis or the LLM call —
only when its trimmed text is also shorter than 3 characters, and is
processed as a normal turn when the trimmed text has at least 3
characters. -/
theorem C1_amended (c : ℚ) (s : String) (env : HandlerEnv) (callSid fromNumber : String)
    (hs : 0 < (jsTrim s).length)
    (hsession : ∃ sess, env.session = .ok sess)
    (hai : ∃ a, env.aiResponse = .ok a) :
    (∃ a f, voiceStreamHandler
        { method := .post
          body := some { speechResult := some s, callSid := callSid,
                         fromNumber := fromNumber, confidence := 3/10 } } env
        = .xml (responseTwiml a f)) ∧
    (c < 3/10 →
      ((jsTrim s).length < 3 →
        ∀ env2 : HandlerEnv, voiceStreamHandler
            { method := .post
              body := some { speechResult := some s, callSid := callSid,
                             fromNumber := fromNumber, confidence := c } } env2
          = .xml clarificationTwiml) ∧
      (3 ≤ (jsTrim s).length →
        ∃ a f, voiceStreamHandler
            { method := .post
              body := some { speechResult := some s, callSid := callSid,
                             fromNumber := fromNumber, confidence := c } } env
          = .xml (responseTwiml a f))) := by
  obtain ⟨sess, hsess⟩ := hsession
  obtain ⟨a, ha⟩ := hai
  have hne : s ≠ "" := by
    intro h0
    rw [h0] at hs
    exact absurd hs (by decide)
  have htruthy : truthyStr (some s) = true := by
    simp [truthyStr, hne]
  refine ⟨?_, fun hc => ⟨fun hshort env2 => ?_, fun hlong => ?_⟩⟩
  · exact ⟨a, _, voiceStreamHandler_processed _ env sess a hsess ha
      (by simp [decide_eq_false (lt_irrefl ((3:ℚ)/10))])
      (by simp [htruthy, hs])⟩
  · exact voiceStreamHandler_clarification _ env2 (by simp [hc, htruthy, hshort])
  · have hnl : ¬ ((jsTrim s).length < 3) := by omega
    exact ⟨a, _, voiceStreamHandler_processed _ env sess a hsess ha
      (by simp [hnl]) (by simp [htruthy, hs])⟩

/-- C1 witness: a concrete turn at confidence exactly 0.3 with non-blank
text is served the normal-turn response TwiML. -/
theorem C1_amended_witness :
    ∃ a f, voiceStreamHandler
        { method := .post
          body := some { speechResult := some "hello there", callSid := "CA1",
                         fromNumber := "+15550111", confidence := 3/10 } }
        { session := .ok { messages := [], leadInfo := initialLeadInfo },
          aiResponse := .ok "Sure." }
      = .xml (responseTwiml a f) :=
  (C1_amended (1/5) "hello there"
    { session := .ok { messages := [], leadInfo := initialLeadInfo },
      aiResponse := .ok "Sure." }
    "CA1" "+15550111" (by decide) ⟨_, rfl⟩ ⟨_, rfl⟩).1

/-- every character kept by takeRun satisfies the class test. -/
theorem takeRun_all (p : Char → Bool) (l : List Char) : (takeRun p l).1.all p = true := by
  induction l with
  | nil => rfl
  | cons c cs ih =>
      unfold takeRun
      dsimp only
      split
      · rename_i hp; simp [hp, ih]
      · rfl

/-- every successful capture of the tail pattern has the one-or-two-word
shape. -/
theorem captureNameAfter_shape (rest nm : List Char)
    (h : captureNameAfter rest = some nm) : NameShape nm := by
  unfold captureNameAfter at h
  dsimp only at h
  split at h
  · exact absurd h (by simp)
  · split at h <;> rename_i hw1
    · exact absurd h (by simp)
    · split at h <;> rename_i hor
      · obtain rfl : _ = nm := Option.some.inj h
        exact Or.inl ⟨by simpa using hw1, takeRun_all _ _⟩
      · obtain rfl : _ = nm := Option.some.inj h
        rw [Bool.or_eq_true, not_or] at hor
        exact Or.inr ⟨_, _, _, rfl, by simpa using hw1,
          by simpa using hor.1, by simpa using hor.2,
          takeRun_all _ _, takeRun_all _ _, takeRun_all _ _⟩

/-- every successful alternative produces a one-or-two-word capture. -/
theorem tryAlternative_shape (s phrase nm : List Char)
    (h : tryAlternative s phrase = some nm) : NameShape nm := by
  unfold tryAlternative at h
  cases hm : matchPhraseCI s phrase with
  | none => rw [hm] at h; exact absurd h (by simp)
  | some rest => rw [hm] at h; exact captureNameAfter_shape rest nm (by simpa using h)

/-- every successful match of the whole regex at one position produces a
one-or-two-word capture. -/
theorem matchNameAt_shape (s nm : List Char) (h : matchNameAt s = some nm) : NameShape nm := by
  unfold matchNameAt at h
  cases h1 : tryAlternative s (String.toList "my name is") with
  | some x =>
      rw [h1] at h
      simp only [Option.orElse] at h
      exact Option.some.inj h ▸ tryAlternative_shape _ _ _ h1
  | none =>
      rw [h1] at h
      simp only [Option.orElse] at h
      cases h2 : tryAlternative s (String.toList "i\x27m") with
      | some x =>
          rw [h2] at h
          simp only [Option.orElse] at h
          exact Option.some.inj h ▸ tryAlternative_shape _ _ _ h2
      | none =>
          rw [h2] at h
          simp only [Option.orElse] at h
          exact tryAlternative_shape _ _ _ h

/-- every name the leftmost scan extracts has the one-or-two-word shape. -/
theorem scanName_shape (l nm : List Char) (h : scanName l = some nm) : NameShape nm := by
  induction l with
  | nil => exact absurd h (by simp [scanName])
  | cons c cs ih =>
      unfold scanName at h
      cases hm : matchNameAt (c :: cs) with
      | some x => rw [hm] at h; exact Option.some.inj h ▸ matchNameAt_shape _ _ hm
      | none => rw [hm] at h; exact ih h

/-- C8 counterexample: for the input "I\x27m calling about..." the extracted
contact name is not the single word "calling" — the optional
second word also captures "about". -/
theorem C8_counterexample :
    (analyzeMessage "I\x27m calling about...").contactInfo.name ≠ some "calling" := by
  decide

/-- C8 amended: name extraction is the single regex alternation over
"my name is X" / "I\x27m X" / "I am X" capturing one or two letter words
with no dictionary validation — every successful capture is one letter
word or two letter words joined by whitespace — and for the input
"I\x27m calling about..." the extracted contact name is "calling about". -/
theorem C8_amended :
    (∀ (message : String) (nm : List Char),
        scanName message.toList = some nm → NameShape nm)
      ∧ extractName "I\x27m calling about..." = some "calling about"
      ∧ (analyzeMessage "I\x27m calling about...").contactInfo.name = some "calling about" :=
  ⟨fun message nm h => scanName_shape message.toList nm h, by decide, by decide⟩

/-- C8 witness: the capture for "my name is bob" is the single word
"bob", which has the one-or-two-word shape. -/
theorem C8_amended_witness : NameShape ("bob".toList) :=
  C8_amended.1 "my name is bob" ("bob".toList) (by decide)

end VoiceAgent
